import Mathlib

/-!
Shallow embedding of the `richard` resource-ingestion pipeline
(`src/richard-api/app/learning/...`) and proofs about its behaviour.

Text is modelled as `List Char` (Python `str`); time offsets from the
transcript segments are modelled as `ℚ` (the Python floats involved in the
checked properties are small decimal values on which float and rational
arithmetic agree).  Fallible Python code (raising) is modelled with
`Except`; the catch-all handlers of the source become `match` on the
`Except` value.  Calls to external backends (OpenAI, S3, YouTube) are
modelled as explicit outcome parameters; everything up to and after those
calls is translated from the source.
-/

set_option autoImplicit false

deriving instance DecidableEq for Except

namespace Richard

/-- Python strings are modelled as lists of characters. -/
abbrev Str := List Char

/-- Python `str.strip()`: drop whitespace from both ends. -/
def pyStrip (s : Str) : Str :=
  ((s.dropWhile Char.isWhitespace).reverse.dropWhile Char.isWhitespace).reverse

/-- The double-quote character (written via its code point to keep the
character literal unambiguous). -/
def quoteChar : Char := Char.ofNat 34

/-- The single-quote character. -/
def apostropheChar : Char := Char.ofNat 39

/-- Python `str.strip('"\x27')` as used on generated titles: drop quote
characters from both ends. -/
def pyStripQuotes (s : Str) : Str :=
  let isQ : Char → Bool := fun c => c = quoteChar || c = apostropheChar
  ((s.dropWhile isQ).reverse.dropWhile isQ).reverse

/-- Truthiness-plus-blank test used all over the source:
`not x or x.strip() == ""` for an optional string field
(`None`, `""` and whitespace-only strings are "blank"). -/
def blankOpt (o : Option Str) : Bool :=
  match o with
  | none => true
  | some s => s.isEmpty || (pyStrip s).isEmpty

/-- Checks that `p` occurs as a contiguous sublist of `s` (Python `p in s`). -/
def containsSub (s p : Str) : Bool :=
  (List.range (s.length + 1)).any fun i => p.isPrefixOf (s.drop i)

-- ================================================
-- extract_youtube_video_id (resource_transcription.py lines 17-37)
-- ================================================

/-- Character class `[a-zA-Z0-9_-]` of the video-id regexes. -/
def ytIdChar (c : Char) : Bool :=
  c.isAlphanum || c = '_' || c = '-'

/-- Regex piece `([a-zA-Z0-9_-]{11})`: take exactly 11 class characters
starting here, or fail. -/
def take11After (s : Str) : Option Str :=
  let t := s.take 11
  if t.length = 11 && t.all ytIdChar then some t else none

/-- First alternative marker of pattern 1: `youtube.com/watch?v=`. -/
def p1watch : Str := "youtube.com/watch?v=".toList

/-- Second alternative marker of pattern 1: `youtu.be/`. -/
def p1short : Str := "youtu.be/".toList

/-- Third alternative marker of pattern 1: `youtube.com/embed/`. -/
def p1embed : Str := "youtube.com/embed/".toList

/-- Marker of pattern 2: `youtube.com/watch?`, followed in the regex by
`.*v=` and the id group. -/
def p2marker : Str := "youtube.com/watch?".toList

/-- Pattern 1 (`(?:youtube\.com/watch\?v=|youtu\.be/|youtube\.com/embed/)`
followed by the 11-character id group) tried at the current position.
The three markers are mutually exclusive as prefixes, so alternation
order does not matter. -/
def matchP1At (s : Str) : Option Str :=
  if p1watch.isPrefixOf s then take11After (s.drop p1watch.length)
  else if p1short.isPrefixOf s then take11After (s.drop p1short.length)
  else if p1embed.isPrefixOf s then take11After (s.drop p1embed.length)
  else none

/-- Greedy `.*v=([a-zA-Z0-9_-]{11})`: the id attached to the LAST viable
`v=` occurrence in the given (newline-free) text. -/
def findLastVid : Str → Option Str
  | [] => none
  | c :: cs =>
    match findLastVid cs with
    | some r => some r
    | none =>
      if c = 'v' then
        match cs with
        | '=' :: t => take11After t
        | _ => none
      else none

/-- Pattern 2 (`youtube\.com/watch\?.*v=([a-zA-Z0-9_-]{11})`) tried at the
current position; `.*` does not cross a newline. -/
def matchP2At (s : Str) : Option Str :=
  if p2marker.isPrefixOf s then
    findLastVid ((s.drop p2marker.length).takeWhile (fun c => c ≠ '\n'))
  else none

/-- Python `re.search`: try the pattern matcher at every position from
the left (including the empty suffix at the very end) and return the
first match. -/
def reSearch (m : Str → Option Str) : Str → Option Str
  | [] => m []
  | c :: rest =>
    match m (c :: rest) with
    | some r => some r
    | none => reSearch m rest

/-- `re.search` for pattern 1. -/
def searchP1 : Str → Option Str := reSearch matchP1At

/-- `re.search` for pattern 2. -/
def searchP2 : Str → Option Str := reSearch matchP2At

/-- Embedding of `extract_youtube_video_id` (resource_transcription.py
lines 17-37): try the two regex patterns in order; raise `ValueError` if
neither matches anywhere in the URL. -/
def extract_youtube_video_id (url : Str) : Except Str Str :=
  match searchP1 url with
  | some vid => .ok vid
  | none =>
    match searchP2 url with
    | some vid => .ok vid
    | none => .error ("Could not extract video ID from URL: ".toList ++ url)

/-- Declarative form of "the URL contains an 11-character identifier in an
accepted shape": some position of the URL starts a match of pattern 1 or
pattern 2.  Stated positionally (bounded index) rather than by the
scanning recursion of the parser. -/
def hasAcceptedId (url : Str) : Bool :=
  (List.range (url.length + 1)).any fun i =>
    (matchP1At (url.drop i)).isSome || (matchP2At (url.drop i)).isSome

-- ================================================
-- format_transcript_for_display (resource_transcription.py lines 39-105)
-- ================================================

/-- Addition on ℚ, written via `mkRat` so that the kernel can evaluate it
(`Rat.add` is `@[irreducible]`); `qadd_eq` shows it is ordinary addition. -/
def qadd (a b : ℚ) : ℚ := mkRat (a.num * b.den + b.num * a.den) (a.den * b.den)

/-- Subtraction on ℚ via `mkRat`; `qsub_eq` shows it is ordinary
subtraction. -/
def qsub (a b : ℚ) : ℚ := mkRat (a.num * b.den - b.num * a.den) (a.den * b.den)

/-- Strict order test on ℚ via `Rat.blt`; `qlt_iff` shows it decides `<`. -/
def qlt (a b : ℚ) : Bool := Rat.blt a b

theorem qadd_eq (a b : ℚ) : qadd a b = a + b := (Rat.add_def' a b).symm

theorem qsub_eq (a b : ℚ) : qsub a b = a - b := (Rat.sub_def' a b).symm

theorem qlt_iff (a b : ℚ) : qlt a b = true ↔ a < b := Iff.rfl

/-- A transcript segment from the YouTube API: the dict
`{'text': ..., 'start': ..., 'duration': ...}`.  The Python floats are
modelled as exact rationals. -/
structure Segment where
  text : Str
  start : ℚ
  duration : ℚ
  deriving DecidableEq

/-- The character class `[.!?]` of sentence-ending punctuation. -/
def sentencePunct (c : Char) : Bool :=
  c = '.' || c = '!' || c = '?'

/-- Python `sep.join(parts)`. -/
def joinWith (sep : Str) : List Str → Str
  | [] => []
  | [x] => x
  | x :: y :: rest => x ++ sep ++ joinWith sep (y :: rest)

/-- Mutable state of the formatting loop: `current_paragraph`,
`formatted_segments` and `last_end_time` of lines 52-54. -/
structure FmtState where
  current_paragraph : List Str
  formatted_segments : List Str
  last_end_time : ℚ
  deriving DecidableEq

/-- One iteration of the loop at lines 56-90, with `next?` the lookahead
`transcript_list[i + 1]` (or `none` at the last entry). -/
def fmtStep (entry : Segment) (next? : Option Segment) (st : FmtState) : FmtState :=
  let text := pyStrip entry.text
  if text.isEmpty then st
  else
    let text :=
      if sentencePunct (text.getLastD ' ') then text
      else
        match next? with
        | some ne =>
          let next_text := pyStrip ne.text
          let time_gap := qsub ne.start (qadd entry.start entry.duration)
          if (!next_text.isEmpty && (next_text.headD ' ').isUpper)
              || qlt 2 time_gap then
            text ++ ['.']
          else text
        | none => text
    let text :=
      match text with
      | c :: rest => if c.isLower then c.toUpper :: rest else c :: rest
      | [] => []
    let current_paragraph := st.current_paragraph ++ [text]
    let time_gap : ℚ := if qlt 0 st.last_end_time then qsub entry.start st.last_end_time else 0
    let (current_paragraph, formatted_segments) :=
      if qlt 3 time_gap && !current_paragraph.isEmpty then
        ([], st.formatted_segments ++ [joinWith [' '] current_paragraph])
      else (current_paragraph, st.formatted_segments)
    { current_paragraph := current_paragraph
      formatted_segments := formatted_segments
      last_end_time := qadd entry.start entry.duration }

/-- The loop of lines 56-90 over all segments, feeding each entry its
lookahead. -/
def fmtLoop : List Segment → FmtState → FmtState
  | [], st => st
  | [e], st => fmtStep e none st
  | e :: e2 :: rest, st => fmtLoop (e2 :: rest) (fmtStep e (some e2) st)

/-- The cleanup pass `re.sub(r'\s+', ' ', ...)` of line 101: every maximal
run of whitespace becomes a single space. -/
def collapseWs : List Char → List Char
  | [] => []
  | [c] => if c.isWhitespace then [' '] else [c]
  | c :: d :: rest =>
    if c.isWhitespace then
      if d.isWhitespace then collapseWs (d :: rest)
      else ' ' :: collapseWs (d :: rest)
    else c :: collapseWs (d :: rest)

/-- The cleanup pass `re.sub(r'\s+([.!?])', r'\1', ...)` of line 102:
whitespace preceding sentence punctuation is removed.  (Processing from
the right removes, one character at a time, exactly the whitespace runs
the regex deletes; the replacement introduces no new whitespace, so the
left-to-right regex scan and this right fold agree.) -/
def fixSpaceBeforePunct : List Char → List Char
  | [] => []
  | c :: cs =>
    let rest := fixSpaceBeforePunct cs
    if c.isWhitespace && sentencePunct (rest.headD ' ') then rest
    else c :: rest

/-- Scanning loop of the third cleanup pass, written with explicit fuel so
that the recursion is structural (each step consumes at least one
character, so `fuel = l.length` never runs out). -/
def fixSAPGo : Nat → List Char → List Char
  | _, [] => []
  | 0, l => l
  | fuel + 1, c :: cs =>
    if sentencePunct c then
      match cs.dropWhile Char.isWhitespace with
      | d :: ds =>
        if d.isLower then c :: ' ' :: d :: fixSAPGo fuel ds
        else c :: fixSAPGo fuel cs
      | [] => c :: fixSAPGo fuel cs
    else c :: fixSAPGo fuel cs

/-- The cleanup pass `re.sub(r'([.!?])\s*([a-z])', r'\1 \2', ...)` of line
103: sentence punctuation followed by optional whitespace and an ASCII
lowercase letter is normalized to punctuation, one space, letter.  The
scan resumes after the matched letter, as `re.sub` does. -/
def fixSpaceAfterPunct (l : List Char) : List Char :=
  fixSAPGo l.length l

/-- Embedding of `format_transcript_for_display` (resource_transcription.py
lines 39-105): reflow segments into paragraphs, join the paragraphs with
double line breaks, then run the three cleanup regex passes and strip. -/
def format_transcript_for_display (transcript_list : List Segment) : Str :=
  if transcript_list.isEmpty then []
  else
    let st := fmtLoop transcript_list ⟨[], [], 0⟩
    let formatted_segments :=
      if st.current_paragraph.isEmpty then st.formatted_segments
      else st.formatted_segments ++ [joinWith [' '] st.current_paragraph]
    let t := joinWith ['\n', '\n'] formatted_segments
    pyStrip (fixSpaceAfterPunct (fixSpaceBeforePunct (collapseWs t)))

-- ================================================
-- quiz question storage round trip
-- (quiz_generation.py line 129 / routes.py line 633)
-- ================================================

/-- Python `"\n".join(options)` used at quiz_generation.py line 129 to
serialize the options list for storage. -/
def joinNewline (xs : List Str) : Str := joinWith ['\n'] xs

/-- Python `stored.split("\n")` used at routes.py line 633 to reconstruct
the options list from storage (`"".split("\n") == [""]`). -/
def splitNewline : Str → List Str
  | [] => [[]]
  | c :: cs =>
    if c = '\n' then [] :: splitNewline cs
    else
      match splitNewline cs with
      | [] => [[c]]
      | p :: ps => (c :: p) :: ps

-- ================================================
-- generate_quiz_questions (quiz_generation.py lines 53-157)
-- ================================================

/-- A parsed quiz item from the model's JSON output.  The source also
rejects entries that are not dicts or lack one of the three keys
(line 112); those shape checks are subsumed here by typing, and the
JSON-parse / non-list failure paths (which produce zero questions) are
outside the modelled boundary. -/
structure QuizItem where
  question : Str
  options : List Str
  correct_option : Str
  deriving DecidableEq

/-- A persisted `MultipleChoiceQuestion` row (models.py lines 77-88):
`options` is the newline-separated stored string. -/
structure MultipleChoiceQuestion where
  question : Str
  options : Str
  correct_option : Str
  deriving DecidableEq

/-- The per-item validation of quiz_generation.py lines 120-126: exactly
4 options and `correct_option in options`. -/
def validQuizItem (it : QuizItem) : Bool :=
  it.options.length = 4 && it.options.contains it.correct_option

/-- Construction of the persisted row (quiz_generation.py lines 128-137):
question and correct_option are stripped, options are newline-joined
unstripped. -/
def persistQuizItem (it : QuizItem) : MultipleChoiceQuestion :=
  { question := pyStrip it.question
    options := joinNewline it.options
    correct_option := pyStrip it.correct_option }

/-- The accumulation loop of quiz_generation.py lines 111-140: valid items
are persisted in order, invalid ones are skipped with a warning. -/
def generate_quiz_questions : List QuizItem → List MultipleChoiceQuestion
  | [] => []
  | it :: rest =>
    if validQuizItem it then persistQuizItem it :: generate_quiz_questions rest
    else generate_quiz_questions rest

-- ================================================
-- generate_flash_cards (flash_card_generation.py lines 46-133)
-- ================================================

/-- A parsed flash-card item: the source checks only that the parsed dict
HAS the keys `front` and `back` (line 104), so the fields are optional
strings here; no other validation exists in the source. -/
structure RawCardItem where
  front? : Option Str
  back? : Option Str
  deriving DecidableEq

/-- A persisted `FlashCard` row (models.py lines 62-74). -/
structure FlashCard where
  front : Str
  back : Str
  deriving DecidableEq

/-- The accumulation loop of flash_card_generation.py lines 103-116: an
item with both keys present is persisted with stripped front and back;
an item missing a key is skipped with a warning. -/
def generate_flash_cards : List RawCardItem → List FlashCard
  | [] => []
  | it :: rest =>
    match it.front?, it.back? with
    | some f, some b => ⟨pyStrip f, pyStrip b⟩ :: generate_flash_cards rest
    | _, _ => generate_flash_cards rest

-- ================================================
-- data model (models.py)
-- ================================================

/-- Resource types (models.py lines 8-13). -/
inductive LearningResourceFileType
  | pdf
  | youtube_link
  | audio
  | text
  | image
  deriving DecidableEq

/-- Resource statuses (models.py lines 16-21); the spec calls
`transcribing` the "extracting" status. -/
inductive ResourceStatus
  | processing
  | transcribing
  | summarizing
  | completed
  | failed
  deriving DecidableEq

/-- A `LearningResource` row (models.py lines 42-59).  The `emoji` field is
assigned by `summarize_text` in the source even though it is not a mapped
column; it is carried here so that the summarizer's writes are visible. -/
structure LearningResource where
  id : Nat
  user_id : Nat
  title : Option Str
  transcript : Option Str
  summary_notes : Option Str
  resource_type : LearningResourceFileType
  file_url : Option Str
  status : ResourceStatus
  emoji : Option Str
  deriving DecidableEq

-- ================================================
-- summarize_text (resource_summary.py lines 109-195)
-- ================================================

/-- Outcome of the external structured-output chat call and the JSON parse
of its response (resource_summary.py lines 151-177): the OpenAI call and
`json.loads` are outside the modelled boundary, everything from the parse
outcome on is embedded.  `raised` covers any exception reaching the
catch-all at line 193. -/
inductive SummarizeOutcome
  | raised
  | invalidJson
  | parsed (summary? : Option Str) (emoji? : Option Str)

/-- Embedding of `summarize_text`: skip when the transcript is blank or
summary notes already exist; otherwise consult the backend (passing the
transcript, the user-message content of the call) and write
`summary_notes` and `emoji` only on a successfully parsed, non-empty
summary. -/
def summarize_text (backend : Str → SummarizeOutcome) (r : LearningResource) :
    LearningResource :=
  if blankOpt r.transcript then r
  else if !(blankOpt r.summary_notes) then r
  else
    match backend (r.transcript.getD []) with
    | .raised => r
    | .invalidJson => r
    | .parsed s? e? =>
      let generated_summary := pyStrip (s?.getD [])
      let generated_emoji := pyStrip (e?.getD [])
      if generated_summary.isEmpty then r
      else
        { r with
          summary_notes := some generated_summary
          emoji := if generated_emoji.isEmpty then r.emoji else some generated_emoji }

-- ================================================
-- generate_resource_title / gen_youtube_title (resource_summary.py)
-- ================================================

/-- Outcome of the external free-text chat call of
`generate_resource_title` (lines 63-78): `content c?` is
`response.choices[0].message.content`. -/
inductive TitleOutcome
  | raised
  | content (c? : Option Str)

/-- Last index of `c` in `s`, Python `s.rfind(c)` with `none` for `-1`. -/
def lastIndexOf (s : Str) (c : Char) : Option Nat :=
  (List.range s.length).foldl (fun acc i => if s.getD i ' ' = c then some i else acc) none

/-- Maximum of two optional indices (Python `max` over rfind results,
with `-1` below every found index). -/
def optMax (a b : Option Nat) : Option Nat :=
  match a, b with
  | none, b => b
  | some x, none => some x
  | some x, some y => some (max x y)

/-- The `summary_sample` computation of resource_summary.py lines 47-57:
first 1500 characters, trimmed back to the last sentence boundary when
that boundary falls after character 750. -/
def titleSample (notes : Str) : Str :=
  let summary_sample := notes.take 1500
  if notes.length > 1500 then
    match optMax (optMax (lastIndexOf summary_sample '.') (lastIndexOf summary_sample '!'))
        (lastIndexOf summary_sample '?') with
    | some k => if k > 750 then summary_sample.take (k + 1) else summary_sample
    | none => summary_sample
  else summary_sample

/-- Embedding of `generate_resource_title` (resource_summary.py lines
26-107), the text-derived title generator: requires non-blank
`summary_notes`, no-op when a title exists, otherwise asks the backend
with the summary sample and cleans up the reply (strip, strip quotes,
truncate to 200, strip again). -/
def generate_resource_title (backend : Str → TitleOutcome) (r : LearningResource) :
    LearningResource :=
  if blankOpt r.summary_notes then r
  else if !(blankOpt r.title) then r
  else
    match backend (titleSample (r.summary_notes.getD [])) with
    | .raised => r
    | .content c? =>
      match c? with
      | none => r
      | some g =>
        if g.isEmpty || (pyStrip g).isEmpty then r
        else
          let g := pyStrip g
          let g := pyStripQuotes g
          let g := if g.length > 200 then pyStrip (g.take 200) else g
          if g.isEmpty then r else { r with title := some g }

/-- Outcome of the `yt_dlp` metadata fetch in `gen_youtube_title`
(resource_summary.py lines 225-227): `info t?` is
`info_dict.get('title', None)`. -/
inductive YtTitleOutcome
  | raised
  | info (title? : Option Str)

/-- Embedding of `gen_youtube_title` (resource_summary.py lines 198-248),
the video-metadata-derived title generator: fetches the platform title
without downloading content, strips it and truncates to 200 characters. -/
def gen_youtube_title (backend : YtTitleOutcome) (r : LearningResource) :
    LearningResource :=
  if blankOpt r.file_url then r
  else if !(blankOpt r.title) then r
  else
    match backend with
    | .raised => r
    | .info t? =>
      match t? with
      | none => r
      | some t =>
        if t.isEmpty then r
        else
          let t := pyStrip t
          let t := if t.length > 200 then pyStrip (t.take 200) else t
          { r with title := some t }

/-- Tag for the two title-generation functions, so that the dispatch table
can be compared against the claim. -/
inductive TitleGenFn
  | generate_resource_title
  | gen_youtube_title
  deriving DecidableEq

/-- Embedding of `RESOURCE_TYPE_TO_GEN_TITLE_FUNCTION` (resource_summary.py
lines 252-257): all four registered types map to the TEXT-derived
generator `generate_resource_title`; `gen_youtube_title` is not
referenced by the table (nor anywhere else in the source). -/
def RESOURCE_TYPE_TO_GEN_TITLE_FUNCTION :
    LearningResourceFileType → Option TitleGenFn
  | .youtube_link => some .generate_resource_title
  | .pdf => some .generate_resource_title
  | .audio => some .generate_resource_title
  | .text => some .generate_resource_title
  | .image => none

-- ================================================
-- S3 URL resolution (resource_transcription.py lines 190-205 and 307-322)
-- ================================================

/-- Value of a hexadecimal digit, if any. -/
def hexVal (c : Char) : Option Nat :=
  if c.isDigit then some (c.toNat - 48)
  else if 'a' ≤ c && c ≤ 'f' then some (c.toNat - 87)
  else if 'A' ≤ c && c ≤ 'F' then some (c.toNat - 55)
  else none

/-- Python `urllib.parse.unquote` restricted to single-byte percent
escapes: `%XX` becomes the character with that code point.  (Multi-byte
UTF-8 escape sequences, which `unquote` would combine into one character,
decode here to one character per byte; no checked property depends on
them.) -/
def unquote : Str → Str
  | [] => []
  | '%' :: a :: b :: rest =>
    match hexVal a, hexVal b with
    | some ha, some hb => Char.ofNat (16 * ha + hb) :: unquote rest
    | _, _ => '%' :: unquote (a :: b :: rest)
  | c :: rest => c :: unquote rest

/-- The regex `https://([^.]+)\.s3\.[^/]+\.amazonaws\.com/(.+)` applied
with `re.match`: the bucket is the (non-empty, dot-free) run after
`https://`; then the literal `.s3.`; everything up to the first `/` must
be a non-empty region part followed by `.amazonaws.com`; the key is
everything after that `/` up to a newline, non-empty (`.` does not match
newlines). -/
def matchS3Https (url : Str) : Option (Str × Str) :=
  let https := "https://".toList
  if https.isPrefixOf url then
    let rest := url.drop https.length
    let bucket := rest.takeWhile (fun c => c ≠ '.')
    if bucket.isEmpty then none
    else
      let after := rest.drop bucket.length
      let s3mark := ".s3.".toList
      if s3mark.isPrefixOf after then
        let tail := after.drop s3mark.length
        let beforeSlash := tail.takeWhile (fun c => c ≠ '/')
        if beforeSlash.length = tail.length then none
        else
          let suffix := ".amazonaws.com".toList
          if suffix.isSuffixOf beforeSlash && suffix.length < beforeSlash.length then
            let key := (tail.drop (beforeSlash.length + 1)).takeWhile (fun c => c ≠ '\n')
            if key.isEmpty then none else some (bucket, key)
          else none
      else none
  else none

/-- The shared bucket/key resolution of resource_transcription.py lines
192-205 (audio) and 309-322 (PDF): `s3://bucket/key` is split on the
first slash (Python's unpacking of `split('/', 1)` raises when there is
no slash); an HTTPS virtual-hosted URL goes through the regex above with
the key URL-decoded; anything else raises `ValueError`. -/
def parse_s3_url (url : Str) : Except Str (Str × Str) :=
  if "s3://".toList.isPrefixOf url then
    let s3_path := url.drop 5
    let bucket := s3_path.takeWhile (fun c => c ≠ '/')
    if bucket.length = s3_path.length then
      .error "not enough values to unpack (expected 2, got 1)".toList
    else .ok (bucket, s3_path.drop (bucket.length + 1))
  else if "https://".toList.isPrefixOf url && containsSub url ".s3.".toList then
    match matchS3Https url with
    | some (b, k) => .ok (b, unquote k)
    | none => .error ("Unable to parse S3 bucket and key from URL: ".toList ++ url)
  else
    .error ("Invalid S3 URL format: ".toList ++ url
      ++ ". Expected s3:// or https:// S3 URL.".toList)

-- ================================================
-- transcribe_audio (resource_transcription.py lines 167-261)
-- ================================================

/-- Outcome of the S3 download plus speech-to-text call (lines 210-236):
`raised m` is any exception from those external calls, `transcript t` the
text response. -/
inductive AudioOutcome
  | raised (msg : Str)
  | transcript (t : Str)

/-- The body of `transcribe_audio` up to the final catch-all: every
`raise` becomes `Except.error`.  Depends only on `file_url` and the
backend outcome. -/
def transcribe_audio_inner (backend : AudioOutcome) (file_url : Option Str) :
    Except Str Str :=
  match file_url with
  | none => .error "No audio file URL provided in resource.file_url".toList
  | some url =>
    if url.isEmpty then .error "No audio file URL provided in resource.file_url".toList
    else
      match parse_s3_url url with
      | .error e => .error e
      | .ok _ =>
        match backend with
        | .raised m => .error m
        | .transcript t =>
          let transcribed := pyStrip t
          if transcribed.isEmpty then .error "Transcription returned empty text".toList
          else .ok transcribed

/-- Embedding of `transcribe_audio`: the catch-all at lines 257-261 turns
every internal failure into the placeholder transcript
`Transcription failed: ...` instead of raising. -/
def transcribe_audio (backend : AudioOutcome) (r : LearningResource) :
    LearningResource :=
  match transcribe_audio_inner backend r.file_url with
  | .ok t => { r with transcript := some t }
  | .error e => { r with transcript := some ("Transcription failed: ".toList ++ e) }

-- ================================================
-- transcribe_youtube_link (resource_transcription.py lines 107-161)
-- ================================================

/-- Outcome of the external transcript fetch (lines 128-147). -/
inductive YtFetchOutcome
  | raised (msg : Str)
  | fetched (segs : List Segment)

/-- The body of `transcribe_youtube_link` up to the final catch-all. -/
def transcribe_youtube_link_inner (backend : YtFetchOutcome)
    (file_url : Option Str) : Except Str Str :=
  match file_url with
  | none => .error "No YouTube URL provided in resource.file_url".toList
  | some url =>
    if url.isEmpty then .error "No YouTube URL provided in resource.file_url".toList
    else
      match extract_youtube_video_id url with
      | .error e => .error e
      | .ok _ =>
        match backend with
        | .raised m => .error m
        | .fetched segs => .ok (format_transcript_for_display segs)

/-- Embedding of `transcribe_youtube_link`: the catch-all at lines 157-161
degrades every failure to `Transcript not available: ...`. -/
def transcribe_youtube_link (backend : YtFetchOutcome) (r : LearningResource) :
    LearningResource :=
  match transcribe_youtube_link_inner backend r.file_url with
  | .ok t => { r with transcript := some t }
  | .error e => { r with transcript := some ("Transcript not available: ".toList ++ e) }

-- ================================================
-- transcribe_text (resource_transcription.py lines 424-425)
-- ================================================

/-- Embedding of `transcribe_text`: the function body is `pass`, a no-op. -/
def transcribe_text (r : LearningResource) : LearningResource := r

-- ================================================
-- transcribe_pdf (resource_transcription.py lines 266-419)
-- ================================================

/-- Per-page OCR outcome in the loop of lines 373-394: recognized text or
a swallowed page-level failure. -/
inductive PdfPage
  | ocr (t : Str)
  | ocrFailed

/-- Outcome of the external dependency checks, download, rendering and OCR
of `transcribe_pdf`.  Dependency-missing variants mirror the early
returns at lines 288-300, 362-367 and 386-391; `raised` is any other
exception reaching the catch-all at line 413. -/
inductive PdfOutcome
  | pdf2imageMissing
  | pytesseractMissing
  | popplerMissingAtConvert
  | tesseractMissingAtOcr
  | raised (msg : Str)
  | pages (ps : List PdfPage)

/-- The `--- Page N ---` blocks of lines 372-394: pages whose stripped text
is empty (or whose OCR failed) are skipped, numbering follows the full
page list. -/
def pdfPageBlocks (ps : List PdfPage) : List Str :=
  ps.enum.filterMap fun ip =>
    match ip.2 with
    | .ocr t =>
      if (pyStrip t).isEmpty then none
      else some ("--- Page ".toList ++ (Nat.repr (ip.1 + 1)).toList
        ++ " ---\n".toList ++ pyStrip t)
    | .ocrFailed => none

/-- ASCII `str.lower()`. -/
def toLowerStr (s : Str) : Str := s.map Char.toLower

/-- The URL presence check and bucket/key resolution shared by the PDF
path (lines 302-322). -/
def pdfParseUrl (file_url : Option Str) : Except Str Unit :=
  match file_url with
  | none => .error "No PDF file URL provided in resource.file_url".toList
  | some url =>
    if url.isEmpty then .error "No PDF file URL provided in resource.file_url".toList
    else
      match parse_s3_url url with
      | .error e => .error e
      | .ok _ => .ok ()

/-- Embedding of `transcribe_pdf`: dependency checks come before the URL
is inspected; rendering/OCR dependency failures degrade to explanatory
placeholders; page text is joined with `--- Page N ---` delimiters; the
catch-all at lines 413-419 special-cases messages mentioning poppler. -/
def transcribe_pdf (backend : PdfOutcome) (r : LearningResource) :
    LearningResource :=
  let result : Except Str Str :=
    match backend with
    | .pdf2imageMissing =>
      .ok "PDF processing unavailable: pdf2image library not installed. Please install pdf2image and poppler-utils.".toList
    | .pytesseractMissing =>
      .ok "PDF processing unavailable: pytesseract library not installed. Please install pytesseract and tesseract-ocr.".toList
    | .popplerMissingAtConvert =>
      pdfParseUrl r.file_url >>= fun _ =>
        .ok "PDF processing failed: Poppler utilities not installed. Please install poppler-utils on the server.".toList
    | .tesseractMissingAtOcr =>
      pdfParseUrl r.file_url >>= fun _ =>
        .ok "PDF processing failed: Tesseract OCR not installed. Please install tesseract-ocr on the server.".toList
    | .raised m => pdfParseUrl r.file_url >>= fun _ => .error m
    | .pages ps =>
      pdfParseUrl r.file_url >>= fun _ =>
        let blocks := pdfPageBlocks ps
        if blocks.isEmpty then
          .ok "No text could be extracted from this PDF file. The document may contain only images or be password protected.".toList
        else .ok (joinWith "\n\n".toList blocks)
  match result with
  | .ok t => { r with transcript := some t }
  | .error e =>
    if containsSub (toLowerStr e) "poppler".toList then
      { r with transcript := some "PDF processing failed: System dependencies missing. Please ensure poppler-utils and tesseract-ocr are installed on the server.".toList }
    else { r with transcript := some ("PDF transcription failed: ".toList ++ e) }

-- ================================================
-- transcribe_images (resource_transcription.py lines 428-575)
-- ================================================

/-- Per-image outcome of the loop at lines 483-558.  The per-image S3 URL
parse and bucket comparison operate on database rows (outside the
modelled boundary), so their failure modes appear as outcomes. -/
inductive ImgStep
  | unparseableUrl
  | wrongBucket
  | ocrText (t : Str)
  | ocrError (msg : Str)
  | outerError (msg : Str)

/-- Outcomes of `transcribe_images` before/around the loop. -/
inductive ImagesOutcome
  | pytesseractMissing
  | noDb
  | noImages
  | tesseractMissingAtOcr
  | raised (msg : Str)
  | steps (xs : List ImgStep)

/-- The `--- Image N ---` block contributed by one image (lines 488-557);
skipped URLs contribute nothing but still consume their index. -/
def imageBlock (n : Nat) (s : ImgStep) : Option Str :=
  let header := "--- Image ".toList ++ (Nat.repr n).toList ++ " ---\n".toList
  match s with
  | .unparseableUrl => none
  | .wrongBucket => none
  | .ocrText t =>
    if (pyStrip t).isEmpty then some (header ++ "[No text detected in this image]".toList)
    else some (header ++ pyStrip t)
  | .ocrError m => some (header ++ "[Error processing this image: ".toList ++ m ++ "]".toList)
  | .outerError m => some (header ++ "[Error: ".toList ++ m ++ "]".toList)

/-- Embedding of `transcribe_images`. -/
def transcribe_images (backend : ImagesOutcome) (r : LearningResource) :
    LearningResource :=
  match backend with
  | .pytesseractMissing =>
    { r with transcript := some "Image processing unavailable: pytesseract library not installed. Please install pytesseract and tesseract-ocr.".toList }
  | .noDb =>
    { r with transcript := some "Image processing failed: Database session not provided.".toList }
  | .noImages =>
    { r with transcript := some "No images found for this resource.".toList }
  | .tesseractMissingAtOcr =>
    { r with transcript := some "Image processing failed: Tesseract OCR not installed. Please install tesseract-ocr on the server.".toList }
  | .raised m =>
    if containsSub (toLowerStr m) "tesseract".toList then
      { r with transcript := some "Image processing failed: System dependencies missing. Please ensure tesseract-ocr is installed on the server.".toList }
    else { r with transcript := some ("Image transcription failed: ".toList ++ m) }
  | .steps xs =>
    let blocks := xs.enum.filterMap fun is => imageBlock (is.1 + 1) is.2
    if blocks.isEmpty then
      { r with transcript := some "No text could be extracted from any of the images. The images may not contain readable text.".toList }
    else { r with transcript := some (joinWith "\n\n".toList blocks) }

-- ================================================
-- ingest_resource (resource_ingestion.py lines 21-71)
-- ================================================

/-- The external outcomes each ingestion stage may consult.  Database
commits of `save_resource_status` are modelled as always succeeding (the
`failed` path of lines 58-68 fires only on exceptions none of the
modelled stages raise past their boundary). -/
structure Backends where
  youtube : YtFetchOutcome
  audio : AudioOutcome
  pdf : PdfOutcome
  images : ImagesOutcome
  summarize : Str → SummarizeOutcome
  title : Str → TitleOutcome
  ytTitle : YtTitleOutcome

/-- Embedding of `RESOURCE_TYPE_TO_TRANSCRIBE_FUNCTION`
(resource_transcription.py lines 579-585): every one of the five resource
types has an entry, including TEXT (the no-op `transcribe_text`). -/
def RESOURCE_TYPE_TO_TRANSCRIBE_FUNCTION (bk : Backends) :
    LearningResourceFileType → Option (LearningResource → LearningResource)
  | .youtube_link => some (transcribe_youtube_link bk.youtube)
  | .pdf => some (transcribe_pdf bk.pdf)
  | .audio => some (transcribe_audio bk.audio)
  | .text => some transcribe_text
  | .image => some (transcribe_images bk.images)

/-- Interpretation of a title-generator tag as the embedded function. -/
def runTitleGen (bk : Backends) : TitleGenFn → LearningResource → LearningResource
  | .generate_resource_title => generate_resource_title bk.title
  | .gen_youtube_title => gen_youtube_title bk.ytTitle

/-- Embedding of `ingest_resource` (resource_ingestion.py lines 21-71):
look the resource up (not found is the fatal path), run the type's
transcriber if registered (persisting `transcribing` first), persist
`summarizing`, summarize, run the type's title generator if registered,
persist `completed`.  Returns the final resource together with the list
of statuses persisted by `save_resource_status`, in order. -/
def ingest_resource (bk : Backends) (res? : Option LearningResource) :
    Except Str (LearningResource × List ResourceStatus) :=
  match res? with
  | none => .error "Resource not found".toList
  | some resource =>
    let (r1, trace1) :=
      match RESOURCE_TYPE_TO_TRANSCRIBE_FUNCTION bk resource.resource_type with
      | some f => (f { resource with status := .transcribing }, [ResourceStatus.transcribing])
      | none => (resource, ([] : List ResourceStatus))
    let r2 := { r1 with status := .summarizing }
    let r3 := summarize_text bk.summarize r2
    let r4 :=
      match RESOURCE_TYPE_TO_GEN_TITLE_FUNCTION r3.resource_type with
      | some g => runTitleGen bk g r3
      | none => r3
    let r5 := { r4 with status := .completed }
    .ok (r5, trace1 ++ [ResourceStatus.summarizing, ResourceStatus.completed])

-- ================================================
-- helper lemmas
-- ================================================

theorem mem_pyStrip {c : Char} {l : Str} (h : c ∈ pyStrip l) : c ∈ l := by
  unfold pyStrip at h
  rw [List.mem_reverse] at h
  have h1 := (List.dropWhile_sublist (l := (l.dropWhile Char.isWhitespace).reverse)
    Char.isWhitespace).subset h
  rw [List.mem_reverse] at h1
  exact (List.dropWhile_sublist Char.isWhitespace).subset h1

theorem mem_collapseWs : ∀ (l : Str) (c : Char), c ∈ collapseWs l →
    c = ' ' ∨ c.isWhitespace = false
  | [], c, h => by simp [collapseWs] at h
  | [d], c, h => by
    simp only [collapseWs] at h
    split at h
    · simp at h; exact Or.inl h
    · simp at h
      subst h
      rename_i hw
      exact Or.inr (by simpa using hw)
  | d :: e :: rest, c, h => by
    simp only [collapseWs] at h
    split at h
    · split at h
      · exact mem_collapseWs (e :: rest) c h
      · rcases List.mem_cons.1 h with h1 | h1
        · exact Or.inl h1
        · exact mem_collapseWs (e :: rest) c h1
    · rcases List.mem_cons.1 h with h1 | h1
      · subst h1
        rename_i hw
        exact Or.inr (by simpa using hw)
      · exact mem_collapseWs (e :: rest) c h1

theorem mem_fixSpaceBeforePunct : ∀ (l : Str) (c : Char),
    c ∈ fixSpaceBeforePunct l → c ∈ l
  | [], c, h => by simp [fixSpaceBeforePunct] at h
  | d :: cs, c, h => by
    simp only [fixSpaceBeforePunct] at h
    split at h
    · exact List.mem_cons_of_mem d (mem_fixSpaceBeforePunct cs c h)
    · rcases List.mem_cons.1 h with h1 | h1
      · exact h1 ▸ List.mem_cons_self d cs
      · exact List.mem_cons_of_mem d (mem_fixSpaceBeforePunct cs c h1)

theorem mem_fixSAPGo : ∀ (fuel : Nat) (l : Str) (c : Char),
    c ∈ fixSAPGo fuel l → c ∈ l ∨ c = ' '
  | _, [], c, h => by simp [fixSAPGo] at h
  | 0, d :: cs, c, h => by
    simp only [fixSAPGo] at h
    exact Or.inl h
  | fuel + 1, d :: cs, c, h => by
    have hsub : (cs.dropWhile Char.isWhitespace) ⊆ cs :=
      (List.dropWhile_sublist Char.isWhitespace).subset
    simp only [fixSAPGo] at h
    split at h
    · split at h
      next e es heq =>
        split at h
        · rcases List.mem_cons.1 h with h1 | h1
          · exact Or.inl (h1 ▸ List.mem_cons_self d cs)
          rcases List.mem_cons.1 h1 with h2 | h2
          · exact Or.inr h2
          rcases List.mem_cons.1 h2 with h3 | h3
          · refine Or.inl (List.mem_cons_of_mem d (hsub ?_))
            rw [heq]
            exact h3 ▸ List.mem_cons_self e es
          · rcases mem_fixSAPGo fuel es c h3 with h4 | h4
            · refine Or.inl (List.mem_cons_of_mem d (hsub ?_))
              rw [heq]
              exact List.mem_cons_of_mem e h4
            · exact Or.inr h4
        · rcases List.mem_cons.1 h with h1 | h1
          · exact Or.inl (h1 ▸ List.mem_cons_self d cs)
          · rcases mem_fixSAPGo fuel cs c h1 with h2 | h2
            · exact Or.inl (List.mem_cons_of_mem d h2)
            · exact Or.inr h2
      next heq =>
        rcases List.mem_cons.1 h with h1 | h1
        · exact Or.inl (h1 ▸ List.mem_cons_self d cs)
        · rcases mem_fixSAPGo fuel cs c h1 with h2 | h2
          · exact Or.inl (List.mem_cons_of_mem d h2)
          · exact Or.inr h2
    · rcases List.mem_cons.1 h with h1 | h1
      · exact Or.inl (h1 ▸ List.mem_cons_self d cs)
      · rcases mem_fixSAPGo fuel cs c h1 with h2 | h2
        · exact Or.inl (List.mem_cons_of_mem d h2)
        · exact Or.inr h2

theorem mem_fixSpaceAfterPunct {c : Char} {l : Str}
    (h : c ∈ fixSpaceAfterPunct l) : c ∈ l ∨ c = ' ' :=
  mem_fixSAPGo l.length l c h

-- ================================================
-- claim theorems
-- ================================================

/-- C2: on the segment list
`[{"text":"hello world","start":0,"duration":1},
  {"text":"Next thought","start":5,"duration":1}]`
the formatter returns the single string `Hello world. Next thought`, NOT
two paragraphs: the paragraph-break check at lines 83-88 runs only after
the current segment has been appended to `current_paragraph`, so the
second segment is merged into the first paragraph, and the whitespace
pass at line 101 collapses any `\n\n` separator to a single space anyway.
The inserted terminal period and the capitalization do happen. -/
theorem C2_reflow_eval :
    format_transcript_for_display
        [⟨"hello world".toList, 0, 1⟩, ⟨"Next thought".toList, 5, 1⟩]
      = "Hello world. Next thought".toList := by decide

/-- C10: for every input segment list the formatter's result contains no
newline character: the final `re.sub(r'\s+', ' ', ...)` pass replaces
every whitespace run — including the `\n\n` paragraph separators inserted
at line 98 — with a single space, and the later passes introduce only
spaces, so the returned transcript is always a single line. -/
theorem C10_transcript_single_line (ts : List Segment) :
    (format_transcript_for_display ts).all (fun c => !(c == '\n')) = true := by
  rw [List.all_eq_true]
  intro c hc
  simp only [Bool.not_eq_true', beq_eq_false_iff_ne, ne_eq]
  intro hceq
  subst hceq
  unfold format_transcript_for_display at hc
  split at hc
  · simp at hc
  · have h1 := mem_pyStrip hc
    rcases mem_fixSpaceAfterPunct h1 with h2 | h2
    · have h3 := mem_fixSpaceBeforePunct _ _ h2
      rcases mem_collapseWs _ _ h3 with h4 | h4
      · exact absurd h4 (by decide)
      · exact absurd h4 (by decide)
    · exact absurd h2 (by decide)

theorem splitNewline_no_nl : ∀ (x : Str), '\n' ∉ x → splitNewline x = [x]
  | [], _ => rfl
  | c :: cs, h => by
    have hc : ¬ c = '\n' := fun hcc => h (hcc ▸ List.mem_cons_self c cs)
    have ih := splitNewline_no_nl cs (fun hm => h (List.mem_cons_of_mem c hm))
    simp [splitNewline, if_neg hc, ih]

theorem splitNewline_append : ∀ (x t : Str), '\n' ∉ x →
    splitNewline (x ++ '\n' :: t) = x :: splitNewline t
  | [], t, _ => by simp [splitNewline]
  | c :: cs, t, h => by
    have hc : ¬ c = '\n' := fun hcc => h (hcc ▸ List.mem_cons_self c cs)
    have ih := splitNewline_append cs t (fun hm => h (List.mem_cons_of_mem c hm))
    simp [splitNewline, if_neg hc, ih]

theorem splitNewline_joinNewline : ∀ (xs : List Str), xs ≠ [] →
    (∀ x ∈ xs, '\n' ∉ x) → splitNewline (joinNewline xs) = xs
  | [], h, _ => absurd rfl h
  | [x], _, hnl => by
    simp only [joinNewline, joinWith]
    exact splitNewline_no_nl x (hnl x (List.mem_singleton.2 rfl))
  | x :: y :: rest, _, hnl => by
    have ih := splitNewline_joinNewline (y :: rest) (by simp)
      (fun z hz => hnl z (List.mem_cons_of_mem x hz))
    simp only [joinNewline, joinWith] at ih ⊢
    rw [show x ++ ['\n'] ++ joinWith ['\n'] (y :: rest)
        = x ++ '\n' :: joinWith ['\n'] (y :: rest) by simp]
    rw [splitNewline_append _ _ (hnl x (List.mem_cons_self x (y :: rest)))]
    rw [ih]

/-- C8: the newline-join / newline-split storage round trip is NOT the
identity on every 4-element options list: an option that itself contains
a newline is split apart on deserialization. -/
theorem C8_counterexample :
    splitNewline (joinNewline ["a\nb".toList, "c".toList, "d".toList, "e".toList])
      ≠ ["a\nb".toList, "c".toList, "d".toList, "e".toList] := by decide

/-- C8 (amended): for every 4-element options list whose entries contain
no newline character, serializing for storage (newline-joined string,
quiz_generation.py line 129) and deserializing (splitting the stored
string, routes.py line 633) reproduces the same ordered 4-element list. -/
theorem C8_options_round_trip (opts : List Str) (h4 : opts.length = 4)
    (hnl : ∀ o ∈ opts, '\n' ∉ o) :
    splitNewline (joinNewline opts) = opts :=
  splitNewline_joinNewline opts
    (fun h0 => by rw [h0] at h4; exact absurd h4 (by decide)) hnl

theorem C8_options_round_trip_witness :
    (["a".toList, "b".toList, "c".toList, "d".toList].length = 4)
    ∧ splitNewline (joinNewline ["a".toList, "b".toList, "c".toList, "d".toList])
        = ["a".toList, "b".toList, "c".toList, "d".toList] :=
  ⟨by decide, C8_options_round_trip _ (by decide) (by decide)⟩

theorem generate_quiz_filter : ∀ (items : List QuizItem),
    generate_quiz_questions (items.filter validQuizItem) = generate_quiz_questions items
  | [] => rfl
  | it :: rest => by
    cases hv : validQuizItem it <;>
      simp [List.filter_cons, hv, generate_quiz_questions, generate_quiz_filter rest]

theorem mem_generate_quiz : ∀ (items : List QuizItem) (m : MultipleChoiceQuestion),
    m ∈ generate_quiz_questions items →
    ∃ it ∈ items, validQuizItem it = true ∧ m = persistQuizItem it
  | [], m, h => by simp [generate_quiz_questions] at h
  | it :: rest, m, h => by
    simp only [generate_quiz_questions] at h
    split at h
    · rcases List.mem_cons.1 h with h1 | h1
      · exact ⟨it, List.mem_cons_self it rest, by assumption, h1⟩
      · obtain ⟨it', hmem, hv, he⟩ := mem_generate_quiz rest m h1
        exact ⟨it', List.mem_cons_of_mem it hmem, hv, he⟩
    · obtain ⟨it', hmem, hv, he⟩ := mem_generate_quiz rest m h
      exact ⟨it', List.mem_cons_of_mem it hmem, hv, he⟩

theorem validQuizItem_iff (it : QuizItem) :
    validQuizItem it = true ↔ it.options.length = 4 ∧ it.correct_option ∈ it.options := by
  simp [validQuizItem, List.elem_iff]

/-- C4 counterexample: the item
`{"question": "q", "options": ["a ", "b", "c", "d"], "correct_option": "a "}`
passes both validation checks (4 options, `correct_option` byte-for-byte
in `options`) and is persisted, but the persisted row strips
`correct_option` to `"a"` while storing the options unstripped, so the
stored `correct_option` equals none of the four stored options. -/
theorem C4_counterexample :
    generate_quiz_questions
        [⟨"q".toList, ["a ".toList, "b".toList, "c".toList, "d".toList], "a ".toList⟩]
      = [⟨"q".toList, "a \nb\nc\nd".toList, "a".toList⟩]
    ∧ "a".toList ∉ splitNewline "a \nb\nc\nd".toList := by decide

/-- C4 (amended): every parsed item whose options list does not have
exactly 4 entries, or whose `correct_option` is not byte-for-byte present
in the options, is rejected and never persisted (the output is unchanged
by dropping invalid items); every persisted row comes from a valid item
with question and `correct_option` stripped and the options newline
joined; and when every item's `correct_option` carries no surrounding
whitespace and no option contains a newline, each persisted row's stored
`correct_option` equals one of its four stored options verbatim. -/
theorem C4_quiz_validation (items : List QuizItem) :
    generate_quiz_questions items = generate_quiz_questions (items.filter validQuizItem)
    ∧ (∀ m ∈ generate_quiz_questions items, ∃ it ∈ items,
        it.options.length = 4 ∧ it.correct_option ∈ it.options ∧ m = persistQuizItem it)
    ∧ (∀ m ∈ generate_quiz_questions items,
        (∀ it ∈ items, pyStrip it.correct_option = it.correct_option
          ∧ ∀ o ∈ it.options, '\n' ∉ o) →
        (splitNewline m.options).length = 4
          ∧ m.correct_option ∈ splitNewline m.options) := by
  refine ⟨(generate_quiz_filter items).symm, ?_, ?_⟩
  · intro m hm
    obtain ⟨it, hmem, hv, he⟩ := mem_generate_quiz items m hm
    obtain ⟨h4, hin⟩ := (validQuizItem_iff it).1 hv
    exact ⟨it, hmem, h4, hin, he⟩
  · intro m hm hclean
    obtain ⟨it, hmem, hv, he⟩ := mem_generate_quiz items m hm
    obtain ⟨h4, hin⟩ := (validQuizItem_iff it).1 hv
    obtain ⟨hstrip, hnl⟩ := hclean it hmem
    have hne : it.options ≠ [] := fun h0 => by
      rw [h0] at h4; exact absurd h4 (by decide)
    have hrt : splitNewline (joinNewline it.options) = it.options :=
      splitNewline_joinNewline _ hne hnl
    subst he
    simp only [persistQuizItem]
    rw [hrt, hstrip]
    exact ⟨h4, hin⟩

def quizItems1 : List QuizItem :=
  [⟨"q".toList, ["a".toList, "b".toList, "c".toList, "d".toList], "a".toList⟩]

def quizRow1 : MultipleChoiceQuestion := ⟨"q".toList, "a\nb\nc\nd".toList, "a".toList⟩

theorem C4_quiz_validation_witness :
    (∃ it ∈ quizItems1, it.options.length = 4 ∧ it.correct_option ∈ it.options
      ∧ quizRow1 = persistQuizItem it)
    ∧ ((splitNewline quizRow1.options).length = 4
      ∧ quizRow1.correct_option ∈ splitNewline quizRow1.options) :=
  ⟨(C4_quiz_validation quizItems1).2.1 quizRow1 (by decide),
   (C4_quiz_validation quizItems1).2.2 quizRow1 (by decide) (by decide)⟩

theorem mem_generate_flash_cards : ∀ (items : List RawCardItem) (c : FlashCard),
    c ∈ generate_flash_cards items → ∃ it ∈ items, ∃ f b,
      it.front? = some f ∧ it.back? = some b ∧ c.front = pyStrip f ∧ c.back = pyStrip b
  | [], c, h => by simp [generate_flash_cards] at h
  | it :: rest, c, h => by
    simp only [generate_flash_cards] at h
    cases hf : it.front? with
    | none =>
      rw [hf] at h
      obtain ⟨it', hmem, rest'⟩ := mem_generate_flash_cards rest c h
      exact ⟨it', List.mem_cons_of_mem it hmem, rest'⟩
    | some f =>
      cases hb : it.back? with
      | none =>
        rw [hf, hb] at h
        obtain ⟨it', hmem, rest'⟩ := mem_generate_flash_cards rest c h
        exact ⟨it', List.mem_cons_of_mem it hmem, rest'⟩
      | some b =>
        rw [hf, hb] at h
        rcases List.mem_cons.1 h with h1 | h1
        · exact ⟨it, List.mem_cons_self it rest, f, b, hf, hb, by rw [h1], by rw [h1]⟩
        · obtain ⟨it', hmem, rest'⟩ := mem_generate_flash_cards rest c h1
          exact ⟨it', List.mem_cons_of_mem it hmem, rest'⟩

theorem generate_flash_cards_complete : ∀ (items : List RawCardItem) (it : RawCardItem),
    it ∈ items → ∀ f b, it.front? = some f → it.back? = some b →
    (⟨pyStrip f, pyStrip b⟩ : FlashCard) ∈ generate_flash_cards items
  | [], it, h, _, _, _, _ => absurd h (List.not_mem_nil it)
  | x :: rest, it, hmem, f, b, hf, hb => by
    rcases List.mem_cons.1 hmem with h1 | h1
    · subst h1
      simp only [generate_flash_cards, hf, hb]
      exact List.mem_cons_self _ _
    · have ih := generate_flash_cards_complete rest it h1 f b hf hb
      simp only [generate_flash_cards]
      cases hxf : x.front? with
      | none => exact ih
      | some f' =>
        cases hxb : x.back? with
        | none => exact ih
        | some b' => exact List.mem_cons_of_mem _ ih

/-- C5 counterexample: the parsed item `{"front": "", "back": "x"}` has
both keys present, so flash_card_generation.py persists it even though
its front text is empty — contradicting "every item with an empty front
or back is skipped and not persisted". -/
theorem C5_counterexample :
    generate_flash_cards [⟨some [], some "x".toList⟩] = [⟨[], "x".toList⟩] := by decide

/-- C5 (amended): a parsed item is persisted exactly when it has both a
front and a back field present (key presence is the only validation in
the source — emptiness is not checked, so items with empty front or back
text are persisted too), and each persisted item's front and back are the
parsed values trimmed of surrounding whitespace. -/
theorem C5_flash_cards (items : List RawCardItem) :
    (∀ c ∈ generate_flash_cards items, ∃ it ∈ items, ∃ f b,
        it.front? = some f ∧ it.back? = some b ∧ c.front = pyStrip f ∧ c.back = pyStrip b)
    ∧ ∀ it ∈ items, ∀ f b, it.front? = some f → it.back? = some b →
        (⟨pyStrip f, pyStrip b⟩ : FlashCard) ∈ generate_flash_cards items :=
  ⟨fun c hc => mem_generate_flash_cards items c hc,
   fun it hit f b hf hb => generate_flash_cards_complete items it hit f b hf hb⟩

theorem C5_flash_cards_witness :
    (⟨"a".toList, "b".toList⟩ : FlashCard)
      ∈ generate_flash_cards [⟨some " a ".toList, some "b".toList⟩] := by
  have h := (C5_flash_cards [⟨some " a ".toList, some "b".toList⟩]).2
    ⟨some " a ".toList, some "b".toList⟩ (by decide) (" a ".toList) ("b".toList) rfl rfl
  have e1 : pyStrip " a ".toList = "a".toList := by decide
  have e2 : pyStrip "b".toList = "b".toList := by decide
  rw [e1, e2] at h
  exact h

/-- C3 counterexample: the title dispatch table maps the web-video type to
the TEXT-derived generator `generate_resource_title`, not to the
video-metadata-derived `gen_youtube_title`. -/
theorem C3_counterexample :
    RESOURCE_TYPE_TO_GEN_TITLE_FUNCTION .youtube_link = some .generate_resource_title
    ∧ RESOURCE_TYPE_TO_GEN_TITLE_FUNCTION .youtube_link ≠ some .gen_youtube_title := by
  exact ⟨rfl, by decide⟩

/-- C3 (amended): for the web-video type the title dispatch table selects
the text-derived generator `generate_resource_title`; the
video-metadata-derived `gen_youtube_title` (which fetches the platform
title without downloading and truncates to 200 characters) exists in the
source but is registered for no resource type at all. -/
theorem C3_title_dispatch :
    RESOURCE_TYPE_TO_GEN_TITLE_FUNCTION .youtube_link = some .generate_resource_title
    ∧ ∀ t, RESOURCE_TYPE_TO_GEN_TITLE_FUNCTION t ≠ some .gen_youtube_title := by
  refine ⟨rfl, ?_⟩
  intro t
  cases t <;> decide

theorem C3_title_dispatch_witness :
    RESOURCE_TYPE_TO_GEN_TITLE_FUNCTION .youtube_link = some .generate_resource_title
    ∧ RESOURCE_TYPE_TO_GEN_TITLE_FUNCTION .pdf ≠ some .gen_youtube_title :=
  ⟨C3_title_dispatch.1, C3_title_dispatch.2 .pdf⟩

theorem reSearch_eq_none (m : Str → Option Str) : ∀ (s : Str),
    reSearch m s = none ↔ ∀ i : Nat, m (s.drop i) = none
  | [] => by
    constructor
    · intro h i
      rw [List.drop_nil]
      simpa [reSearch] using h
    · intro h
      simpa [reSearch] using h 0
  | c :: rest => by
    have ih := reSearch_eq_none m rest
    constructor
    · intro h i
      simp only [reSearch] at h
      cases hm : m (c :: rest) with
      | some r => rw [hm] at h; exact absurd h (by simp)
      | none =>
        rw [hm] at h
        cases i with
        | zero => simpa using hm
        | succ j =>
          rw [List.drop_succ_cons]
          exact ih.1 h j
    · intro h
      simp only [reSearch]
      cases hm : m (c :: rest) with
      | some r =>
        have h0 := h 0
        rw [List.drop_zero, hm] at h0
        exact absurd h0 (by simp)
      | none =>
        exact ih.2 fun j => by
          have hj := h (j + 1)
          rwa [List.drop_succ_cons] at hj

theorem isSome_false_eq_none {α : Type} (o : Option α) (h : o.isSome = false) :
    o = none := by
  cases o
  · rfl
  · simp at h

theorem extract_error_of_not_accepted (url : Str) (h : hasAcceptedId url = false) :
    extract_youtube_video_id url
      = .error ("Could not extract video ID from URL: ".toList ++ url) := by
  unfold hasAcceptedId at h
  rw [List.any_eq_false] at h
  have hboth : ∀ i : Nat, matchP1At (url.drop i) = none ∧ matchP2At (url.drop i) = none := by
    intro i
    by_cases hi : i < url.length + 1
    · have hmem := h i (List.mem_range.2 hi)
      simp only [Bool.or_eq_true, not_or, Bool.not_eq_true] at hmem
      exact ⟨isSome_false_eq_none _ hmem.1, isSome_false_eq_none _ hmem.2⟩
    · have hlen := h url.length (List.mem_range.2 (by omega))
      simp only [Bool.or_eq_true, not_or, Bool.not_eq_true, List.drop_length] at hlen
      have hnil : url.drop i = [] := List.drop_eq_nil_of_le (by omega)
      rw [hnil]
      exact ⟨isSome_false_eq_none _ hlen.1, isSome_false_eq_none _ hlen.2⟩
  have hs1 : searchP1 url = none :=
    (reSearch_eq_none matchP1At url).2 fun i => (hboth i).1
  have hs2 : searchP2 url = none :=
    (reSearch_eq_none matchP2At url).2 fun i => (hboth i).2
  simp [extract_youtube_video_id, hs1, hs2]

/-- C7: the video-URL parser extracts `abcDEFghi12` from each of the three
given URL shapes, and for every URL at no position of which either regex
pattern matches an 11-character identifier, it raises a `ValueError`. -/
theorem C7_video_id :
    extract_youtube_video_id "https://youtu.be/abcDEFghi12".toList
      = .ok "abcDEFghi12".toList
    ∧ extract_youtube_video_id "https://www.youtube.com/watch?v=abcDEFghi12".toList
      = .ok "abcDEFghi12".toList
    ∧ extract_youtube_video_id "https://m.youtube.com/watch?v=abcDEFghi12".toList
      = .ok "abcDEFghi12".toList
    ∧ ∀ url : Str, hasAcceptedId url = false →
        extract_youtube_video_id url
          = .error ("Could not extract video ID from URL: ".toList ++ url) :=
  ⟨by decide, by decide, by decide, extract_error_of_not_accepted⟩

theorem C7_video_id_witness :
    hasAcceptedId "https://example.com/page".toList = false
    ∧ extract_youtube_video_id "https://example.com/page".toList
        = .error ("Could not extract video ID from URL: ".toList
            ++ "https://example.com/page".toList) :=
  ⟨by decide, C7_video_id.2.2.2 "https://example.com/page".toList (by decide)⟩

/-- C9: the summarizer on a resource that already has summary notes, and
the text-derived title generator on a resource that already has a title,
return the resource unchanged and make no backend call (the result is
independent of the backend supplied). -/
theorem C9_idempotence (rA rB : LearningResource)
    (bk bk' : Str → SummarizeOutcome) (tb tb' : Str → TitleOutcome)
    (hA : blankOpt rA.summary_notes = false) (hB : blankOpt rB.title = false) :
    summarize_text bk rA = rA ∧ summarize_text bk rA = summarize_text bk' rA
    ∧ generate_resource_title tb rB = rB
    ∧ generate_resource_title tb rB = generate_resource_title tb' rB := by
  have hs : ∀ (bk0 : Str → SummarizeOutcome), summarize_text bk0 rA = rA := fun bk0 => by
    cases htr : blankOpt rA.transcript <;> simp [summarize_text, htr, hA]
  have ht : ∀ (tb0 : Str → TitleOutcome), generate_resource_title tb0 rB = rB := fun tb0 => by
    cases hsn : blankOpt rB.summary_notes <;> simp [generate_resource_title, hsn, hB]
  exact ⟨hs bk, (hs bk).trans (hs bk').symm, ht tb, (ht tb).trans (ht tb').symm⟩

def rSum : LearningResource :=
  ⟨1, 1, none, some "t".toList, some "notes".toList, .text, none, .completed, none⟩

def rTitle : LearningResource :=
  ⟨1, 1, some "T".toList, some "t".toList, some "notes".toList, .text, none, .completed, none⟩

theorem C9_idempotence_witness :
    blankOpt rSum.summary_notes = false ∧ blankOpt rTitle.title = false
    ∧ (summarize_text (fun _ => .parsed (some "S".toList) (some "E".toList)) rSum = rSum
      ∧ summarize_text (fun _ => .parsed (some "S".toList) (some "E".toList)) rSum
          = summarize_text (fun _ => .raised) rSum
      ∧ generate_resource_title (fun _ => .content (some "X".toList)) rTitle = rTitle
      ∧ generate_resource_title (fun _ => .content (some "X".toList)) rTitle
          = generate_resource_title (fun _ => .raised) rTitle) :=
  ⟨by decide, by decide,
   C9_idempotence rSum rTitle _ _ _ _ (by decide) (by decide)⟩

theorem summarize_text_transcript (bk : Str → SummarizeOutcome) (r : LearningResource) :
    (summarize_text bk r).transcript = r.transcript := by
  unfold summarize_text
  repeat' split
  all_goals try rfl
  all_goals dsimp only
  all_goals repeat' split
  all_goals rfl

theorem summarize_text_resource_type (bk : Str → SummarizeOutcome) (r : LearningResource) :
    (summarize_text bk r).resource_type = r.resource_type := by
  unfold summarize_text
  repeat' split
  all_goals try rfl
  all_goals dsimp only
  all_goals repeat' split
  all_goals rfl

theorem generate_resource_title_transcript (tb : Str → TitleOutcome) (r : LearningResource) :
    (generate_resource_title tb r).transcript = r.transcript := by
  unfold generate_resource_title
  repeat' split
  all_goals try rfl
  all_goals dsimp only
  all_goals repeat' split
  all_goals rfl

def bk0 : Backends :=
  ⟨.raised "x".toList, .raised "x".toList, .pdf2imageMissing, .pytesseractMissing,
   fun _ => .raised, fun _ => .raised, .raised⟩

def r0text : LearningResource := ⟨1, 1, none, none, none, .text, none, .processing, none⟩

/-- C1 counterexample: the plain-text type DOES have a registered entry in
the transcription dispatch table, so ingesting a plain-text resource
persists the `transcribing` ("extracting") status between `processing`
and `summarizing`. -/
theorem C1_counterexample :
    (RESOURCE_TYPE_TO_TRANSCRIBE_FUNCTION bk0 .text).isSome = true
    ∧ ingest_resource bk0 (some r0text)
        = .ok ({r0text with status := .completed},
            [ResourceStatus.transcribing, ResourceStatus.summarizing,
              ResourceStatus.completed])
    ∧ ResourceStatus.transcribing
        ∈ [ResourceStatus.transcribing, ResourceStatus.summarizing,
            ResourceStatus.completed] := by decide

/-- C1 (amended): the plain-text type is registered in the transcription
dispatch table, mapped to the no-op `transcribe_text`; the orchestrator
therefore persists `transcribing`, `summarizing`, `completed` (in that
order) for every plain-text resource, entering the extraction stage but
leaving the transcript unchanged. -/
theorem C1_text_ingest (bk : Backends) (r : LearningResource)
    (h : r.resource_type = .text) :
    ∃ r', ingest_resource bk (some r)
        = .ok (r', [ResourceStatus.transcribing, ResourceStatus.summarizing,
            ResourceStatus.completed])
      ∧ r'.transcript = r.transcript ∧ r'.status = .completed := by
  simp only [ingest_resource, h, RESOURCE_TYPE_TO_TRANSCRIBE_FUNCTION, transcribe_text,
    summarize_text_resource_type, RESOURCE_TYPE_TO_GEN_TITLE_FUNCTION, runTitleGen]
  refine ⟨_, rfl, ?_, rfl⟩
  rw [generate_resource_title_transcript, summarize_text_transcript]

theorem C1_text_ingest_witness :
    r0text.resource_type = .text
    ∧ ∃ r', ingest_resource bk0 (some r0text)
        = .ok (r', [ResourceStatus.transcribing, ResourceStatus.summarizing,
            ResourceStatus.completed])
      ∧ r'.transcript = r0text.transcript ∧ r'.status = .completed :=
  ⟨rfl, C1_text_ingest bk0 r0text rfl⟩

/-- C6: whenever the audio extraction body fails internally (any raised
error, e.g. an unresolvable blob locator), `transcribe_audio` writes the
human-readable diagnostic `Transcription failed: ...` into the transcript
instead of raising, and the orchestrator still drives the resource to
`completed`, never `failed`. -/
theorem C6_extraction_failure_completes (bk : Backends) (r : LearningResource) (msg : Str)
    (hty : r.resource_type = .audio)
    (hfail : transcribe_audio_inner bk.audio r.file_url = .error msg) :
    ∃ r', ingest_resource bk (some r)
        = .ok (r', [ResourceStatus.transcribing, ResourceStatus.summarizing,
            ResourceStatus.completed])
      ∧ r'.status = .completed
      ∧ r'.transcript = some ("Transcription failed: ".toList ++ msg) := by
  simp only [ingest_resource, hty, RESOURCE_TYPE_TO_TRANSCRIBE_FUNCTION, transcribe_audio]
  rw [show ({r with status := ResourceStatus.transcribing} : LearningResource).file_url
      = r.file_url from rfl]
  rw [hfail]
  simp only [summarize_text_resource_type, hty, RESOURCE_TYPE_TO_GEN_TITLE_FUNCTION,
    runTitleGen]
  refine ⟨_, rfl, rfl, ?_⟩
  rw [generate_resource_title_transcript, summarize_text_transcript]

def rAudioBad : LearningResource :=
  ⟨2, 1, none, none, none, .audio, some "ftp://x".toList, .processing, none⟩

theorem C6_extraction_failure_witness :
    rAudioBad.resource_type = .audio
    ∧ transcribe_audio_inner bk0.audio rAudioBad.file_url
        = .error ("Invalid S3 URL format: ftp://x. Expected s3:// or https:// S3 URL.".toList)
    ∧ ∃ r', ingest_resource bk0 (some rAudioBad)
        = .ok (r', [ResourceStatus.transcribing, ResourceStatus.summarizing,
            ResourceStatus.completed])
      ∧ r'.status = .completed
      ∧ r'.transcript = some ("Transcription failed: ".toList
          ++ "Invalid S3 URL format: ftp://x. Expected s3:// or https:// S3 URL.".toList) :=
  ⟨rfl, by decide,
   C6_extraction_failure_completes bk0 rAudioBad _ rfl (by decide)⟩

end Richard
